import Mathlib

/-!
Verification of the worker-side task handling core of a durable workflow SDK
(`internal/internal_task_handlers.go`).

The Go code is shallowly embedded: strings are `List Char`, machine integers
(`int64`, `int32`) are `Int` (no arithmetic in the code can overflow the spec's
stated ranges, and none of the verified claims depends on wrap-around),
history events and decisions are flat records carrying the union of the
attribute fields that the embedded functions read (the Go originals reach the
same fields through per-type attribute pointers whose generated getters return
zero values), and the external paged `HistoryIterator` is a list of pages.
-/

/-- Strings are modelled as lists of characters so that every definition is
executable and decidable. -/
abbrev Str := List Char

/-- Event types of `shared.EventType` that the embedded code mentions. -/
inductive EventType where
  | WorkflowExecutionStarted
  | WorkflowExecutionCompleted
  | WorkflowExecutionFailed
  | WorkflowExecutionCanceled
  | WorkflowExecutionContinuedAsNew
  | DecisionTaskScheduled
  | DecisionTaskStarted
  | DecisionTaskCompleted
  | DecisionTaskTimedOut
  | DecisionTaskFailed
  | ActivityTaskScheduled
  | ActivityTaskStarted
  | ActivityTaskCompleted
  | ActivityTaskCancelRequested
  | RequestCancelActivityTaskFailed
  | TimerStarted
  | TimerCanceled
  | CancelTimerFailed
  | MarkerRecorded
  | StartChildWorkflowExecutionInitiated
  | RequestCancelExternalWorkflowExecutionInitiated
  | SignalExternalWorkflowExecutionInitiated
  deriving DecidableEq, Repr

/-- Decision types of `shared.DecisionType` handled by `isDecisionMatchEvent`. -/
inductive DecisionType where
  | ScheduleActivityTask
  | RequestCancelActivityTask
  | StartTimer
  | CancelTimer
  | CompleteWorkflowExecution
  | FailWorkflowExecution
  | CancelWorkflowExecution
  | ContinueAsNewWorkflowExecution
  | RecordMarker
  | StartChildWorkflowExecution
  | RequestCancelExternalWorkflowExecution
  | SignalExternalWorkflowExecution
  deriving DecidableEq, Repr

/-- A history event (`shared.HistoryEvent`): event id, type, and the attribute
fields the embedded functions read, flattened (the Go getters on absent
attributes return the zero value, which is the default here). -/
structure HistoryEvent where
  eventId : Int
  eventType : EventType
  activityId : Str := []
  activityTypeName : Str := []
  taskListName : Str := []
  input : Str := []
  timerId : Str := []
  startToFireTimeoutSeconds : Int := 0
  markerName : Str := []
  result : Str := []
  reason : Str := []
  details : Str := []
  domain : Str := []
  workflowId : Str := []
  signalName : Str := []
  workflowTypeName : Str := []
  deriving DecidableEq, Repr

/-- An outgoing decision (`shared.Decision`): decision type plus the attribute
fields read by the embedded functions, flattened. -/
structure Decision where
  decisionType : DecisionType
  activityId : Str := []
  activityTypeName : Str := []
  taskListName : Str := []
  input : Str := []
  timerId : Str := []
  startToFireTimeoutSeconds : Int := 0
  markerName : Str := []
  result : Str := []
  reason : Str := []
  details : Str := []
  domain : Str := []
  workflowId : Str := []
  signalName : Str := []
  workflowTypeName : Str := []
  executionStartToCloseTimeoutSeconds : Int := 0
  taskStartToCloseTimeoutSeconds : Int := 0
  deriving DecidableEq, Repr

/-! ## History reorderer (`history`, `nextDecisionEvents`) -/

/-- State of the `history` wrapper.  The Go pair `(loadedEvents, currentIndex)`
is represented by the suffix `loadedEvents[currentIndex:]` (the algorithm never
reads events before `currentIndex`, and the batch-end shrink discards them);
the external `HistoryIterator` is represented by the list of its remaining
pages. -/
structure HistState where
  events : List HistoryEvent
  pages : List (List HistoryEvent)
  deriving DecidableEq, Repr

/-- Forward scan of `IsNextDecisionFailed` (lines 166-180): walks the loaded
events from the current index; the first decision outcome decides, finding
none yields `false`. -/
def isNextDecisionFailedAux : List HistoryEvent → Bool
  | [] => false
  | e :: rest =>
    match e.eventType with
    | EventType.DecisionTaskCompleted => false
    | EventType.DecisionTaskTimedOut => true
    | EventType.DecisionTaskFailed => true
    | _ => isNextDecisionFailedAux rest

/-- `history.IsNextDecisionFailed`: scan the loaded events from the current
index (our `events` suffix). -/
def IsNextDecisionFailed (st : HistState) : Bool :=
  isNextDecisionFailedAux st.events

/-- Event types skipped outright by `nextDecisionEvents` (lines 274-278). -/
def isDecisionTaskSkipEvent (t : EventType) : Bool :=
  t == EventType.DecisionTaskCompleted || t == EventType.DecisionTaskScheduled ||
    t == EventType.DecisionTaskTimedOut || t == EventType.DecisionTaskFailed

/-- `isPreloadMarkerEvent` (line 295). -/
def isPreloadMarkerEvent (event : HistoryEvent) : Bool :=
  event.eventType == EventType.MarkerRecorded

/-- One pass of the `OrderEvents` loop over the currently loaded events
(no page loading).  Returns `(some remaining, batch, markers)` when the batch
was terminated by an emitted `DecisionTaskStarted` (with `remaining` the
post-shrink loaded events), and `(none, batch, markers)` when the loaded
events were exhausted and a page load (or loop exit) is required. -/
def consumeBatch : List HistoryEvent → List HistoryEvent → List HistoryEvent →
    Option (List HistoryEvent) × List HistoryEvent × List HistoryEvent
  | [], nextEvents, markers => (none, nextEvents, markers)
  | e :: rest, nextEvents, markers =>
    if e.eventType == EventType.DecisionTaskStarted then
      if !isNextDecisionFailedAux (e :: rest) then
        (some rest, nextEvents ++ [e], markers)
      else
        consumeBatch rest nextEvents markers
    else if isDecisionTaskSkipEvent e.eventType then
      consumeBatch rest nextEvents markers
    else
      consumeBatch rest (nextEvents ++ [e])
        (if isPreloadMarkerEvent e then markers ++ [e] else markers)

/-- The `OrderEvents` loop of `nextDecisionEvents` (lines 250-291): consume
loaded events; on exhaustion load the next page (appending its events) and
continue; with no pages left, exit the loop and shrink. -/
def nextDecisionEventsPages : List (List HistoryEvent) → List HistoryEvent →
    List HistoryEvent → List HistoryEvent →
    HistState × List HistoryEvent × List HistoryEvent
  | pages, events, nextEvents, markers =>
    match consumeBatch events nextEvents markers with
    | (some remaining, ne, mk) => (⟨remaining, pages⟩, ne, mk)
    | (none, ne, mk) =>
      match pages with
      | [] => (⟨[], []⟩, ne, mk)
      | p :: rest => nextDecisionEventsPages rest p ne mk

/-- `history.nextDecisionEvents` (lines 243-293).  The iterator is error-free
in this model, so the Go error result is omitted. -/
def nextDecisionEvents (st : HistState) : HistState × List HistoryEvent × List HistoryEvent :=
  if st.events.isEmpty && st.pages.isEmpty then (st, [], [])
  else nextDecisionEventsPages st.pages st.events [] []

/-- State of the public wrapper `NextDecisionEvents`, which keeps a one-batch
lookahead in `next`. -/
structure HistoryState where
  events : List HistoryEvent
  pages : List (List HistoryEvent)
  next : Option (List HistoryEvent)
  deriving DecidableEq, Repr

/-- `history.NextDecisionEvents` (lines 219-232): fills the lookahead on first
use, returns it, and when it is non-empty immediately computes the following
batch, whose markers are the markers output (lookahead by design). -/
def NextDecisionEvents (eh : HistoryState) :
    HistoryState × List HistoryEvent × List HistoryEvent :=
  let filled :=
    match eh.next with
    | none =>
      let (st, ne, _mk) := nextDecisionEvents ⟨eh.events, eh.pages⟩
      (st, ne)
    | some ne => (HistState.mk eh.events eh.pages, ne)
  let result := filled.2
  if result.length > 0 then
    let (st2, ne2, mk2) := nextDecisionEvents filled.1
    (⟨st2.events, st2.pages, some ne2⟩, result, mk2)
  else
    (⟨filled.1.events, filled.1.pages, some result⟩, result, [])

/-! ### Shape of the batches produced by `nextDecisionEvents` -/

theorem nextDecisionEventsPages_emit (pages : List (List HistoryEvent))
    (evs ne mk rem ne2 mk2 : List HistoryEvent)
    (h : consumeBatch evs ne mk = (some rem, ne2, mk2)) :
    nextDecisionEventsPages pages evs ne mk = (⟨rem, pages⟩, ne2, mk2) := by
  conv_lhs => unfold nextDecisionEventsPages
  rw [h]

theorem nextDecisionEventsPages_nil (evs ne mk ne2 mk2 : List HistoryEvent)
    (h : consumeBatch evs ne mk = (none, ne2, mk2)) :
    nextDecisionEventsPages [] evs ne mk = (⟨[], []⟩, ne2, mk2) := by
  conv_lhs => unfold nextDecisionEventsPages
  rw [h]

theorem nextDecisionEventsPages_cons (p : List HistoryEvent)
    (rest : List (List HistoryEvent)) (evs ne mk ne2 mk2 : List HistoryEvent)
    (h : consumeBatch evs ne mk = (none, ne2, mk2)) :
    nextDecisionEventsPages (p :: rest) evs ne mk =
      nextDecisionEventsPages rest p ne2 mk2 := by
  conv_lhs => unfold nextDecisionEventsPages
  rw [h]

theorem mem_dropLast_append {α : Type} (a b : List α) (e : α)
    (he : e ∈ (a ++ b).dropLast) : e ∈ a ∨ e ∈ b.dropLast := by
  cases b with
  | nil =>
    rw [List.append_nil] at he
    exact Or.inl (List.dropLast_subset a he)
  | cons y ys =>
    rw [List.dropLast_append_cons] at he
    exact List.mem_append.mp he

theorem consumeBatch_spec (evs : List HistoryEvent) : ∀ ne mk : List HistoryEvent,
    ∃ tail : List HistoryEvent,
      (consumeBatch evs ne mk).2.1 = ne ++ tail ∧
      (consumeBatch evs ne mk).2.2 = mk ++ tail.filter isPreloadMarkerEvent ∧
      (∀ e ∈ tail, isDecisionTaskSkipEvent e.eventType = false) ∧
      (∀ e ∈ tail.dropLast, e.eventType ≠ EventType.DecisionTaskStarted) ∧
      ((consumeBatch evs ne mk).1 = none →
        ∀ e ∈ tail, e.eventType ≠ EventType.DecisionTaskStarted) := by
  induction evs with
  | nil =>
    intro ne mk
    exact ⟨[], by simp [consumeBatch], by simp [consumeBatch], by simp, by simp,
      fun _ => by simp⟩
  | cons x rest ih =>
    intro ne mk
    by_cases hx : x.eventType = EventType.DecisionTaskStarted
    · by_cases hf : isNextDecisionFailedAux (x :: rest) = true
      · have hcb : consumeBatch (x :: rest) ne mk = consumeBatch rest ne mk := by
          simp [consumeBatch, hx, hf]
        rw [hcb]
        exact ih ne mk
      · have hf' : isNextDecisionFailedAux (x :: rest) = false := by
          revert hf; cases isNextDecisionFailedAux (x :: rest) <;> simp
        have hcb : consumeBatch (x :: rest) ne mk = (some rest, ne ++ [x], mk) := by
          simp [consumeBatch, hx, hf']
        rw [hcb]
        refine ⟨[x], by simp, ?_, ?_, by simp, by simp⟩
        · simp [isPreloadMarkerEvent, hx]
        · intro e he
          rcases List.mem_singleton.mp he with rfl
          simp [isDecisionTaskSkipEvent, hx]
    · by_cases hs : isDecisionTaskSkipEvent x.eventType = true
      · have hcb : consumeBatch (x :: rest) ne mk = consumeBatch rest ne mk := by
          simp [consumeBatch, hx, hs]
        rw [hcb]
        exact ih ne mk
      · have hs' : isDecisionTaskSkipEvent x.eventType = false := by
          revert hs; cases isDecisionTaskSkipEvent x.eventType <;> simp
        have hcb : consumeBatch (x :: rest) ne mk =
            consumeBatch rest (ne ++ [x])
              (if isPreloadMarkerEvent x then mk ++ [x] else mk) := by
          simp [consumeBatch, hx, hs']
        rw [hcb]
        obtain ⟨tail, h1, h2, h3, h4, h5⟩ :=
          ih (ne ++ [x]) (if isPreloadMarkerEvent x then mk ++ [x] else mk)
        refine ⟨x :: tail, ?_, ?_, ?_, ?_, ?_⟩
        · rw [h1]; simp
        · rw [h2]
          by_cases hm : isPreloadMarkerEvent x = true <;>
            simp [List.filter_cons, hm]
        · intro e he
          rcases List.mem_cons.mp he with rfl | he'
          · exact hs'
          · exact h3 e he'
        · intro e he
          rcases mem_dropLast_append [x] tail e he with h | h
          · rcases List.mem_singleton.mp h with rfl
            exact hx
          · exact h4 e h
        · intro ho e he
          rcases List.mem_cons.mp he with rfl | he'
          · exact hx
          · exact h5 ho e he'

theorem nextDecisionEventsPages_spec :
    ∀ (pages : List (List HistoryEvent)) (evs ne mk : List HistoryEvent),
    ∃ tail : List HistoryEvent,
      (nextDecisionEventsPages pages evs ne mk).2.1 = ne ++ tail ∧
      (nextDecisionEventsPages pages evs ne mk).2.2 = mk ++ tail.filter isPreloadMarkerEvent ∧
      (∀ e ∈ tail, isDecisionTaskSkipEvent e.eventType = false) ∧
      (∀ e ∈ tail.dropLast, e.eventType ≠ EventType.DecisionTaskStarted) := by
  intro pages
  induction pages with
  | nil =>
    intro evs ne mk
    obtain ⟨tail, h1, h2, h3, h4, h5⟩ := consumeBatch_spec evs ne mk
    rcases hcb : consumeBatch evs ne mk with ⟨o, ne', mk'⟩
    rw [hcb] at h1 h2
    cases o with
    | some rem =>
      rw [nextDecisionEventsPages_emit [] evs ne mk rem ne' mk' hcb]
      exact ⟨tail, h1, h2, h3, h4⟩
    | none =>
      rw [nextDecisionEventsPages_nil evs ne mk ne' mk' hcb]
      refine ⟨tail, h1, h2, h3, ?_⟩
      intro e he
      exact h5 (by rw [hcb]) e (List.dropLast_subset tail he)
  | cons p rest ih =>
    intro evs ne mk
    obtain ⟨tail, h1, h2, h3, h4, h5⟩ := consumeBatch_spec evs ne mk
    rcases hcb : consumeBatch evs ne mk with ⟨o, ne', mk'⟩
    rw [hcb] at h1 h2
    cases o with
    | some rem =>
      rw [nextDecisionEventsPages_emit (p :: rest) evs ne mk rem ne' mk' hcb]
      exact ⟨tail, h1, h2, h3, h4⟩
    | none =>
      have hns : ∀ e ∈ tail, e.eventType ≠ EventType.DecisionTaskStarted :=
        h5 (by rw [hcb])
      obtain ⟨tail1, g1, g2, g3, g4⟩ := ih p ne' mk'
      rw [nextDecisionEventsPages_cons p rest evs ne mk ne' mk' hcb]
      refine ⟨tail ++ tail1, ?_, ?_, ?_, ?_⟩
      · rw [g1]
        have h1' : ne' = ne ++ tail := h1
        rw [h1', List.append_assoc]
      · rw [g2]
        have h2' : mk' = mk ++ tail.filter isPreloadMarkerEvent := h2
        rw [h2', List.filter_append, List.append_assoc]
      · intro e he
        rcases List.mem_append.mp he with h | h
        · exact h3 e h
        · exact g3 e h
      · intro e he
        rcases mem_dropLast_append tail tail1 e he with h | h
        · exact hns e h
        · exact g4 e h

theorem nextDecisionEvents_spec (st : HistState) :
    ∃ tail : List HistoryEvent,
      (nextDecisionEvents st).2.1 = tail ∧
      (nextDecisionEvents st).2.2 = tail.filter isPreloadMarkerEvent ∧
      (∀ e ∈ tail, isDecisionTaskSkipEvent e.eventType = false) ∧
      (∀ e ∈ tail.dropLast, e.eventType ≠ EventType.DecisionTaskStarted) := by
  unfold nextDecisionEvents
  by_cases h : (st.events.isEmpty && st.pages.isEmpty) = true
  · rw [if_pos h]
    exact ⟨[], rfl, rfl, by simp, by simp⟩
  · rw [if_neg h]
    obtain ⟨tail, h1, h2, h3, h4⟩ := nextDecisionEventsPages_spec st.pages st.events [] []
    exact ⟨tail, by simpa using h1, by simpa using h2, h3, h4⟩

/-! ### Claims C1 and C6 -/

/-- Modelled from the spec: the "next (forward-scanned) decision outcome" of
the loaded events — the type of the first `DecisionTaskCompleted`,
`DecisionTaskTimedOut` or `DecisionTaskFailed` event, if there is one. -/
def findFirstDecisionOutcome : List HistoryEvent → Option EventType
  | [] => none
  | e :: rest =>
    if e.eventType == EventType.DecisionTaskCompleted ||
        e.eventType == EventType.DecisionTaskTimedOut ||
        e.eventType == EventType.DecisionTaskFailed then
      some e.eventType
    else findFirstDecisionOutcome rest

/-- C1 (amended): every batch produced by `nextDecisionEvents` contains no
event of type `DecisionTaskCompleted`, `DecisionTaskScheduled`,
`DecisionTaskTimedOut` or `DecisionTaskFailed`; a `DecisionTaskStarted` event
can occur only as the final element of its batch; and when the scan loop
reaches a `DecisionTaskStarted` event it skips it and continues exactly when
the forward scan of the loaded events finds a failure or timeout as the next
decision outcome, and otherwise (a completion is found, or no outcome is
found at all) emits it as the final element and terminates the batch. -/
theorem nextDecisionEvents_batch_policy :
    (∀ st : HistState, ∀ e ∈ (nextDecisionEvents st).2.1,
        isDecisionTaskSkipEvent e.eventType = false) ∧
    (∀ st : HistState, ∀ e ∈ ((nextDecisionEvents st).2.1).dropLast,
        e.eventType ≠ EventType.DecisionTaskStarted) ∧
    (∀ (e : HistoryEvent) (rest ne mk : List HistoryEvent),
        e.eventType = EventType.DecisionTaskStarted →
        consumeBatch (e :: rest) ne mk =
          if isNextDecisionFailedAux (e :: rest) then consumeBatch rest ne mk
          else (some rest, ne ++ [e], mk)) := by
  refine ⟨?_, ?_, ?_⟩
  · intro st e he
    obtain ⟨tail, h1, _, h3, _⟩ := nextDecisionEvents_spec st
    rw [h1] at he
    exact h3 e he
  · intro st e he
    obtain ⟨tail, h1, _, _, h4⟩ := nextDecisionEvents_spec st
    rw [h1] at he
    exact h4 e he
  · intro e rest ne mk hs
    by_cases hf : isNextDecisionFailedAux (e :: rest) = true
    · rw [if_pos hf]
      simp [consumeBatch, hs, hf]
    · have hf' : isNextDecisionFailedAux (e :: rest) = false := by
        revert hf; cases isNextDecisionFailedAux (e :: rest) <;> simp
      rw [hf', if_neg (by simp)]
      simp [consumeBatch, hs, hf']

def cexStartedEvent : HistoryEvent :=
  { eventId := 1, eventType := EventType.DecisionTaskStarted }

/-- C1 counterexample: for the loaded history `[DecisionTaskStarted]` the
forward scan finds no decision outcome at all — in particular not a
completion — yet `nextDecisionEvents` emits the started event as the final
element of its batch instead of skipping it, refuting the claim's "emitted if
and only if the next decision outcome is a completion". -/
theorem nextDecisionEvents_started_cex :
    ((nextDecisionEvents ⟨[cexStartedEvent], []⟩).2.1.getLast?.map
        HistoryEvent.eventType = some EventType.DecisionTaskStarted) ∧
    findFirstDecisionOutcome [cexStartedEvent] ≠ some EventType.DecisionTaskCompleted := by
  decide

def wBatchEventA : HistoryEvent :=
  { eventId := 2, eventType := EventType.ActivityTaskScheduled }

def wBatchStarted : HistoryEvent :=
  { eventId := 3, eventType := EventType.DecisionTaskStarted }

def wBatchState : HistState := ⟨[wBatchEventA, wBatchStarted], []⟩

/-- Witness for C1's theorem at a concrete two-event history. -/
theorem nextDecisionEvents_batch_policy_witness :
    isDecisionTaskSkipEvent wBatchEventA.eventType = false ∧
    wBatchEventA.eventType ≠ EventType.DecisionTaskStarted ∧
    consumeBatch [wBatchStarted] [] [] =
      (if isNextDecisionFailedAux [wBatchStarted] then consumeBatch [] [] []
        else (some [], [] ++ [wBatchStarted], [])) :=
  ⟨nextDecisionEvents_batch_policy.1 wBatchState wBatchEventA (by decide),
    nextDecisionEvents_batch_policy.2.1 wBatchState wBatchEventA (by decide),
    nextDecisionEvents_batch_policy.2.2 wBatchStarted [] [] [] (by decide)⟩

/-- C6: whenever `nextDecisionEvents` returns a non-empty events batch, its
markers output is exactly the `MarkerRecorded` events of that same batch. -/
theorem nextDecisionEvents_markers (st : HistState)
    (hne : (nextDecisionEvents st).2.1 ≠ []) :
    (nextDecisionEvents st).2.2 =
      ((nextDecisionEvents st).2.1).filter isPreloadMarkerEvent := by
  obtain ⟨tail, h1, h2, _, _⟩ := nextDecisionEvents_spec st
  rw [h1, h2]

def wMarkerEvent : HistoryEvent :=
  { eventId := 1, eventType := EventType.MarkerRecorded }

/-- Witness for C6's theorem at a concrete one-marker history. -/
theorem nextDecisionEvents_markers_witness :
    (nextDecisionEvents ⟨[wMarkerEvent], []⟩).2.2 =
      ((nextDecisionEvents ⟨[wMarkerEvent], []⟩).2.1).filter isPreloadMarkerEvent :=
  nextDecisionEvents_markers ⟨[wMarkerEvent], []⟩ (by decide)

/-! ## Replay classification (`IsReplayEvent`, `isDecisionEvent`) -/

/-- `isDecisionEvent` (lines 182-200): event types produced by a prior
decision. -/
def isDecisionEvent (eventType : EventType) : Bool :=
  match eventType with
  | EventType.WorkflowExecutionCompleted
  | EventType.WorkflowExecutionFailed
  | EventType.WorkflowExecutionCanceled
  | EventType.WorkflowExecutionContinuedAsNew
  | EventType.ActivityTaskScheduled
  | EventType.ActivityTaskCancelRequested
  | EventType.RequestCancelActivityTaskFailed
  | EventType.TimerStarted
  | EventType.TimerCanceled
  | EventType.CancelTimerFailed
  | EventType.MarkerRecorded
  | EventType.StartChildWorkflowExecutionInitiated
  | EventType.RequestCancelExternalWorkflowExecutionInitiated
  | EventType.SignalExternalWorkflowExecutionInitiated => true
  | _ => false

/-- `history.IsReplayEvent` (lines 162-164), with the task's
`previousStartedEventId` (`task.GetPreviousStartedEventId()`) passed
explicitly. -/
def IsReplayEvent (previousStartedEventId : Int) (event : HistoryEvent) : Bool :=
  decide (event.eventId ≤ previousStartedEventId) || isDecisionEvent event.eventType

/-- C4: `IsReplayEvent` returns true if and only if the event's id is at most
the task's previous started event id, or the event's type is one of the
fourteen decision-event types listed by the claim. -/
theorem IsReplayEvent_iff (prevId : Int) (e : HistoryEvent) :
    IsReplayEvent prevId e = true ↔
      (e.eventId ≤ prevId ∨
        e.eventType ∈ [EventType.ActivityTaskScheduled,
          EventType.ActivityTaskCancelRequested,
          EventType.RequestCancelActivityTaskFailed,
          EventType.TimerStarted,
          EventType.TimerCanceled,
          EventType.CancelTimerFailed,
          EventType.MarkerRecorded,
          EventType.WorkflowExecutionCompleted,
          EventType.WorkflowExecutionFailed,
          EventType.WorkflowExecutionCanceled,
          EventType.WorkflowExecutionContinuedAsNew,
          EventType.StartChildWorkflowExecutionInitiated,
          EventType.RequestCancelExternalWorkflowExecutionInitiated,
          EventType.SignalExternalWorkflowExecutionInitiated]) := by
  unfold IsReplayEvent
  cases he : e.eventType <;> simp [isDecisionEvent, he]

/-! ## Replay matcher (`lastPartOfName`, `isDecisionMatchEvent`,
`matchReplayWithHistory`) -/

/-- Index of the last '.' in a name (`strings.LastIndex(name, ".")`), with
`none` for Go's `-1`. -/
def lastDotIdx : Str → Option Nat
  | [] => none
  | c :: rest =>
    match lastDotIdx rest with
    | some i => some (i + 1)
    | none => if c = '.' then some 0 else none

/-- `lastPartOfName` (lines 905-911): the part of the name after the last dot,
or the whole name when there is no dot or the dot is the final character. -/
def lastPartOfName (name : Str) : Str :=
  match lastDotIdx name with
  | none => name
  | some i => if i = name.length - 1 then name else name.drop (i + 1)

/-- Modelled from the spec: "the component of the activity type name after the
final dot" — everything after the last '.', or the whole name when there is
no dot. -/
def specLastDotComponent (name : Str) : Str :=
  match lastDotIdx name with
  | none => name
  | some i => name.drop (i + 1)

/-- Modelled from the spec: the version marker-name constant (defined outside
the embedded source file). -/
def versionMarkerName : Str := "Version".toList

/-- Modelled from the spec: the mutable-side-effect marker-name constant
(defined outside the embedded source file). -/
def mutableSideEffectMarkerName : Str := "MutableSideEffect".toList

/-- `skipDeterministicCheckForDecision` (lines 841-849). -/
def skipDeterministicCheckForDecision (d : Decision) : Bool :=
  if d.decisionType == DecisionType.RecordMarker then
    d.markerName == versionMarkerName || d.markerName == mutableSideEffectMarkerName
  else false

/-- `skipDeterministicCheckForEvent` (lines 851-859). -/
def skipDeterministicCheckForEvent (e : HistoryEvent) : Bool :=
  if e.eventType == EventType.MarkerRecorded then
    e.markerName == versionMarkerName || e.markerName == mutableSideEffectMarkerName
  else false

/-- `isDecisionMatchEvent` (lines 913-1089), a direct transliteration of the
Go switch over the decision type. -/
def isDecisionMatchEvent (d : Decision) (e : HistoryEvent) (strictMode : Bool) : Bool :=
  match d.decisionType with
  | DecisionType.ScheduleActivityTask =>
    if !(e.eventType == EventType.ActivityTaskScheduled) then false
    else if !(e.activityId == d.activityId) ||
        !(lastPartOfName e.activityTypeName == lastPartOfName d.activityTypeName) ||
        (strictMode && !(e.taskListName == d.taskListName)) ||
        (strictMode && !(e.input == d.input)) then false
    else true
  | DecisionType.RequestCancelActivityTask =>
    if !(e.eventType == EventType.ActivityTaskCancelRequested) &&
        !(e.eventType == EventType.RequestCancelActivityTaskFailed) then false
    else if e.eventType == EventType.ActivityTaskCancelRequested &&
        !(e.activityId == d.activityId) then false
    else if e.eventType == EventType.RequestCancelActivityTaskFailed &&
        !(e.activityId == d.activityId) then false
    else true
  | DecisionType.StartTimer =>
    if !(e.eventType == EventType.TimerStarted) then false
    else if !(e.timerId == d.timerId) ||
        (strictMode && !(e.startToFireTimeoutSeconds == d.startToFireTimeoutSeconds)) then
      false
    else true
  | DecisionType.CancelTimer =>
    if !(e.eventType == EventType.TimerCanceled) &&
        !(e.eventType == EventType.CancelTimerFailed) then false
    else if e.eventType == EventType.TimerCanceled && !(e.timerId == d.timerId) then false
    else if e.eventType == EventType.CancelTimerFailed && !(e.timerId == d.timerId) then false
    else true
  | DecisionType.CompleteWorkflowExecution =>
    if !(e.eventType == EventType.WorkflowExecutionCompleted) then false
    else if strictMode && !(e.result == d.result) then false
    else true
  | DecisionType.FailWorkflowExecution =>
    if !(e.eventType == EventType.WorkflowExecutionFailed) then false
    else if strictMode && (!(e.reason == d.reason) || !(e.details == d.details)) then false
    else true
  | DecisionType.RecordMarker =>
    if !(e.eventType == EventType.MarkerRecorded) then false
    else if !(e.markerName == d.markerName) then false
    else true
  | DecisionType.RequestCancelExternalWorkflowExecution =>
    if !(e.eventType == EventType.RequestCancelExternalWorkflowExecutionInitiated) then false
    else if !(e.domain == d.domain) || !(e.workflowId == d.workflowId) then false
    else true
  | DecisionType.SignalExternalWorkflowExecution =>
    if !(e.eventType == EventType.SignalExternalWorkflowExecutionInitiated) then false
    else if !(e.domain == d.domain) || !(e.signalName == d.signalName) ||
        !(e.workflowId == d.workflowId) then false
    else true
  | DecisionType.CancelWorkflowExecution =>
    if !(e.eventType == EventType.WorkflowExecutionCanceled) then false
    else if strictMode && !(e.details == d.details) then false
    else true
  | DecisionType.ContinueAsNewWorkflowExecution =>
    if !(e.eventType == EventType.WorkflowExecutionContinuedAsNew) then false
    else true
  | DecisionType.StartChildWorkflowExecution =>
    if !(e.eventType == EventType.StartChildWorkflowExecutionInitiated) then false
    else if !(lastPartOfName e.workflowTypeName == lastPartOfName d.workflowTypeName) ||
        (strictMode && !(e.domain == d.domain)) ||
        (strictMode && !(e.taskListName == d.taskListName)) then false
    else true

def wScheduleDecision : Decision :=
  { decisionType := DecisionType.ScheduleActivityTask,
    activityId := "1".toList, activityTypeName := "a.b.Foo".toList }

def wScheduledEvent : HistoryEvent :=
  { eventId := 5, eventType := EventType.ActivityTaskScheduled,
    activityId := "1".toList, activityTypeName := "x.y.Foo".toList }

/-- C5 (amended): in non-strict mode a ScheduleActivity decision matches a
history event if and only if the event is `ActivityTaskScheduled`, the
activity ids are equal, and `lastPartOfName` of the two activity type names
agree — where `lastPartOfName` is the part after the final dot except that a
name containing no dot, or ending in the dot, is taken whole; in particular a
decision with type "a.b.Foo" matches an event with type "x.y.Foo" when the
activity ids agree. -/
theorem scheduleActivity_match_iff (d : Decision) (e : HistoryEvent)
    (hd : d.decisionType = DecisionType.ScheduleActivityTask) :
    (isDecisionMatchEvent d e false = true ↔
      (e.eventType = EventType.ActivityTaskScheduled ∧
        e.activityId = d.activityId ∧
        lastPartOfName e.activityTypeName = lastPartOfName d.activityTypeName)) ∧
    isDecisionMatchEvent wScheduleDecision wScheduledEvent false = true := by
  constructor
  · unfold isDecisionMatchEvent
    rw [hd]
    by_cases h1 : e.eventType = EventType.ActivityTaskScheduled <;>
      by_cases h2 : e.activityId = d.activityId <;>
      by_cases h3 : lastPartOfName e.activityTypeName = lastPartOfName d.activityTypeName <;>
      simp [h1, h2, h3]
  · decide

def cexScheduleDecisionDotEnd : Decision :=
  { decisionType := DecisionType.ScheduleActivityTask,
    activityId := "1".toList, activityTypeName := "a.".toList }

def cexScheduledEventDotEnd : HistoryEvent :=
  { eventId := 7, eventType := EventType.ActivityTaskScheduled,
    activityId := "1".toList, activityTypeName := "b.".toList }

/-- C5 counterexample: with equal activity ids, the decision activity type
name "a." and the event activity type name "b." have equal components after
the final dot (both empty), yet `isDecisionMatchEvent` reports no match
because `lastPartOfName` keeps a name ending in a dot whole — refuting the
claim's if-and-only-if as literally stated. -/
theorem scheduleActivity_match_cex :
    cexScheduledEventDotEnd.eventType = EventType.ActivityTaskScheduled ∧
    cexScheduledEventDotEnd.activityId = cexScheduleDecisionDotEnd.activityId ∧
    specLastDotComponent cexScheduledEventDotEnd.activityTypeName =
      specLastDotComponent cexScheduleDecisionDotEnd.activityTypeName ∧
    isDecisionMatchEvent cexScheduleDecisionDotEnd cexScheduledEventDotEnd false = false := by
  decide

/-- Witness for C5's theorem at the spec's E3 example. -/
theorem scheduleActivity_match_iff_witness :
    ((isDecisionMatchEvent wScheduleDecision wScheduledEvent false = true ↔
      (wScheduledEvent.eventType = EventType.ActivityTaskScheduled ∧
        wScheduledEvent.activityId = wScheduleDecision.activityId ∧
        lastPartOfName wScheduledEvent.activityTypeName =
          lastPartOfName wScheduleDecision.activityTypeName)) ∧
      isDecisionMatchEvent wScheduleDecision wScheduledEvent false = true) :=
  scheduleActivity_match_iff wScheduleDecision wScheduledEvent (by decide)

/-- Errors produced by `matchReplayWithHistory` (lines 886-896), by kind (the
formatted message text is not modelled). -/
inductive MatchErr where
  | missingReplayDecision (e : HistoryEvent)
  | extraReplayDecision (d : Decision)
  | historyMismatch (e : HistoryEvent) (d : Decision)
  deriving DecidableEq, Repr

/-- `matchReplayWithHistory` (lines 861-903): the two-index walk is expressed
on the suffixes still to be matched; each Go loop iteration either consumes a
skipped event, consumes a skipped decision, consumes a matched pair, or
returns an error. -/
def matchReplayWithHistory : List Decision → List HistoryEvent → Option MatchErr
  | [], [] => none
  | ds, e :: es =>
    if skipDeterministicCheckForEvent e then matchReplayWithHistory ds es
    else
      match ds with
      | [] => some (MatchErr.missingReplayDecision e)
      | d :: ds2 =>
        if skipDeterministicCheckForDecision d then matchReplayWithHistory ds2 (e :: es)
        else if isDecisionMatchEvent d e false then matchReplayWithHistory ds2 es
        else some (MatchErr.historyMismatch e d)
  | d :: ds2, [] =>
    if skipDeterministicCheckForDecision d then matchReplayWithHistory ds2 []
    else some (MatchErr.extraReplayDecision d)
termination_by ds es => ds.length + es.length
decreasing_by all_goals simp_wf <;> omega

/-! ## Workflow execution context and sticky cache -/

/-- Error kinds of the SDK error taxonomy that the embedded functions
distinguish (`PanicError`, `CanceledError`, `ContinueAsNewError`, custom and
generic errors, `EntityNotExistsError`). -/
inductive ErrKind where
  | panicErr (msg : Str)
  | canceledErr (details : Str)
  | continueAsNewErr (workflowTypeName : Str) (input : Str) (taskListName : Str)
      (executionStartToCloseTimeoutSeconds : Int) (taskStartToCloseTimeoutSeconds : Int)
  | customErr (reason : Str) (details : Str)
  | entityNotExistsErr
  | genericErr (msg : Str)
  deriving DecidableEq, Repr

/-- Modelled from the spec: `getErrorDetails` (defined in the SDK's error
handling code, outside the embedded source file) extracts a (reason, details)
pair from an error; a custom error carries its own reason and details, which
is the only case the verified claims depend on. -/
def getErrorDetails : ErrKind → Str × Str
  | ErrKind.panicErr m => (m, [])
  | ErrKind.canceledErr d => ("CanceledError".toList, d)
  | ErrKind.continueAsNewErr _ _ _ _ _ => ("ContinueAsNewError".toList, [])
  | ErrKind.customErr r d => (r, d)
  | ErrKind.entityNotExistsErr => ("EntityNotExistsError".toList, [])
  | ErrKind.genericErr m => (m, [])

/-- Modelled from the spec: `NewCustomError(reason, detail)` builds a custom
error carrying the reason and the detail text. -/
def NewCustomError (reason : Str) (details : Str) : ErrKind :=
  ErrKind.customErr reason details

/-- A decision task (`shared.PollForDecisionTaskResponse`), reduced to the
fields the embedded functions read. -/
structure PollForDecisionTaskResponse where
  taskToken : Str
  workflowId : Str
  runId : Str
  workflowTypeName : Str
  history : List HistoryEvent
  previousStartedEventId : Int
  startedEventId : Int
  query : Option Str
  deriving DecidableEq, Repr

/-- The externally implemented event handler
(`workflowExecutionEventHandlerImpl`), reduced to the state the embedded
functions read: pending and unstarted local-activity task ids and the
decisions accumulated in its decisions helper. -/
structure EventHandlerState where
  pendingLaTasks : List Str
  unstartedLaTasks : List Str
  helperDecisions : List Decision
  deriving DecidableEq, Repr

/-- A fresh event handler (`newWorkflowExecutionEventHandler`). -/
def newEventHandler : EventHandlerState := ⟨[], [], []⟩

/-- `workflowExecutionContextImpl`: the cached per-run state.  The mutex and
wall-clock fields are not modelled; `workflowInfo` is inlined as the
domain / workflow id / run id triple, the only parts read here. -/
structure WfCtx where
  domain : Str
  workflowID : Str
  runID : Str
  eventHandler : Option EventHandlerState
  isWorkflowCompleted : Bool
  result : Option Str
  err : Option ErrKind
  previousStartedEventID : Int
  newDecisions : List Decision
  currentDecisionTask : Option PollForDecisionTaskResponse
  deriving DecidableEq, Repr

/-- `NonDeterministicWorkflowPolicy`. -/
inductive NonDeterministicWorkflowPolicy where
  | BlockWorkflow
  | FailWorkflow
  deriving DecidableEq, Repr

/-- The `workflowTaskHandlerImpl` configuration read by the embedded
functions; `laTunnelPresent` abstracts `laTunnel != nil`. -/
structure WthConfig where
  domain : Str
  identity : Str
  disableStickyExecution : Bool
  nonDeterministicWorkflowPolicy : NonDeterministicWorkflowPolicy
  laTunnelPresent : Bool
  deriving DecidableEq, Repr

/-- The sticky cache contents: an association list keyed by run id (the
`cache.Cache` maps a run id to the cached context). -/
abbrev Cache := List (Str × WfCtx)

/-- `getWorkflowContext` (lines 357-364): cache lookup by run id. -/
def getWorkflowContext (cache : Cache) (runID : Str) : Option WfCtx :=
  (cache.find? (fun p => p.1 == runID)).map Prod.snd

/-- `putWorkflowContext` (lines 366-372): `PutIfNotExist` returns the already
cached context when present, otherwise inserts and returns the new one. -/
def putWorkflowContext (cache : Cache) (runID : Str) (wc : WfCtx) : Cache × WfCtx :=
  match getWorkflowContext cache runID with
  | some existing => (cache, existing)
  | none => (cache ++ [(runID, wc)], wc)

/-- `removeWorkflowContext` (lines 374-376): delete by run id. -/
def removeWorkflowContext (cache : Cache) (runID : Str) : Cache :=
  cache.filter (fun p => !(p.1 == runID))

/-- The Go cache stores a pointer, so mutations of a cached context are
visible through the cache; this mirrors them into the association list. -/
def updateWorkflowContext (cache : Cache) (runID : Str) (wc : WfCtx) : Cache :=
  cache.map (fun p => if p.1 == runID then (runID, wc) else p)

/-- `hasPendingLocalActivityWork` (lines 784-786). -/
def hasPendingLocalActivityWork (w : WfCtx) : Bool :=
  !w.isWorkflowCompleted &&
    (match w.eventHandler with
      | none => false
      | some eh => decide (0 < eh.pendingLaTasks.length))

/-- `Unlock` (lines 382-391): remove the context from the sticky cache exactly
when the processing error, the stored error, completion, or
sticky-disabled-with-no-pending-work says so; the mutex release itself is not
modelled.  Returns the cache after the call. -/
def Unlock (cfg : WthConfig) (cache : Cache) (w : WfCtx) (err : Option ErrKind) : Cache :=
  if err.isSome || w.err.isSome || w.isWorkflowCompleted ||
      (cfg.disableStickyExecution && !hasPendingLocalActivityWork w) then
    removeWorkflowContext cache w.runID
  else cache

theorem removeWorkflowContext_not_mem (cache : Cache) (runID : Str) :
    ∀ p ∈ removeWorkflowContext cache runID, p.1 ≠ runID := by
  intro p hp
  rcases List.mem_filter.mp hp with ⟨_, hpf⟩
  simpa using hpf

/-- C3: `Unlock(err)` removes the context from the sticky cache if and only if
the passed error is non-nil, or the context's stored error is non-nil, or the
workflow is completed, or sticky execution is disabled and the context has no
pending local-activity work; in particular whenever the context is completed
or holds an error, after the next `Unlock` its run id is no longer a cache
key. -/
theorem Unlock_removes_iff (cfg : WthConfig) (cache : Cache) (w : WfCtx)
    (err : Option ErrKind) :
    (Unlock cfg cache w err =
      (if err ≠ none ∨ w.err ≠ none ∨ w.isWorkflowCompleted = true ∨
          (cfg.disableStickyExecution = true ∧ hasPendingLocalActivityWork w = false) then
        removeWorkflowContext cache w.runID
      else cache)) ∧
    ((w.isWorkflowCompleted = true ∨ w.err ≠ none) →
      ∀ p ∈ Unlock cfg cache w err, p.1 ≠ w.runID) := by
  constructor
  · unfold Unlock
    refine if_congr ?_ rfl rfl
    simp only [Bool.or_eq_true, Bool.and_eq_true, Option.isSome_iff_ne_none,
      Bool.not_eq_true', or_assoc]
  · intro h p hp
    have hcond : (err.isSome || w.err.isSome || w.isWorkflowCompleted ||
        (cfg.disableStickyExecution && !hasPendingLocalActivityWork w)) = true := by
      rcases h with h | h
      · simp [h]
      · simp [Option.isSome_iff_ne_none.mpr h]
    unfold Unlock at hp
    rw [if_pos hcond] at hp
    exact removeWorkflowContext_not_mem cache w.runID p hp

def wCtxDone : WfCtx :=
  { domain := "dom".toList, workflowID := "wid".toList, runID := "r1".toList,
    eventHandler := none, isWorkflowCompleted := true, result := none,
    err := none, previousStartedEventID := 0, newDecisions := [],
    currentDecisionTask := none }

def wCtxAlive : WfCtx :=
  { domain := "dom".toList, workflowID := "wid2".toList, runID := "r2".toList,
    eventHandler := some newEventHandler, isWorkflowCompleted := false,
    result := none, err := none, previousStartedEventID := 5,
    newDecisions := [], currentDecisionTask := none }

def wCfg : WthConfig :=
  { domain := "dom".toList, identity := "id".toList, disableStickyExecution := false,
    nonDeterministicWorkflowPolicy := NonDeterministicWorkflowPolicy.BlockWorkflow,
    laTunnelPresent := true }

/-- Witness for C3's theorem: unlocking a completed context removes it from a
cache that also holds another run's entry. -/
theorem Unlock_removes_iff_witness :
    (("r2".toList, wCtxAlive) : Str × WfCtx).1 ≠ wCtxDone.runID :=
  (Unlock_removes_iff wCfg [("r1".toList, wCtxDone), ("r2".toList, wCtxAlive)]
      wCtxDone none).2 (Or.inl (by decide)) ("r2".toList, wCtxAlive) (by decide)

/-- `workflowExecutionContextImpl.completeWorkflow` (lines 393-397): the
completion callback handed to the event handler. -/
def completeWorkflowContext (w : WfCtx) (result : Option Str) (err : Option ErrKind) :
    WfCtx :=
  { w with isWorkflowCompleted := true, result := result, err := err }

/-- `clearCurrentTask` (lines 788-791). -/
def clearCurrentTask (w : WfCtx) : WfCtx :=
  { w with newDecisions := [], currentDecisionTask := none }

/-- `clearState` (lines 440-451): clear the current task, the terminal
outcome, the started-event cursor, the accumulated decisions, and close and
drop the event handler. -/
def clearState (w : WfCtx) : WfCtx :=
  { clearCurrentTask w with
    isWorkflowCompleted := false, result := none, err := none,
    previousStartedEventID := 0, newDecisions := [], eventHandler := none }

/-- `createEventHandler` (lines 453-463): clear, then install a fresh event
handler. -/
def createEventHandler (w : WfCtx) : WfCtx :=
  { clearState w with eventHandler := some newEventHandler }

/-- `isDestroyed` (lines 424-426). -/
def isDestroyed (w : WfCtx) : Bool :=
  w.eventHandler == none

/-- `shouldResetStickyOnEviction` (lines 399-406). -/
def shouldResetStickyOnEviction (w : WfCtx) : Bool :=
  w.err == none && !w.isWorkflowCompleted

/-- A `ResetStickyTaskList` request (`resetStickinessTask`, lines 77-80). -/
structure ResetStickinessReq where
  domain : Str
  workflowId : Str
  runId : Str
  deriving DecidableEq, Repr

/-- `queueResetStickinessTask` (lines 428-438): the request enqueued onto the
local-activity tunnel's result channel, built from the context's workflow
info. -/
def queueResetStickinessTask (w : WfCtx) : ResetStickinessReq :=
  ⟨w.domain, w.workflowID, w.runID⟩

/-- `onEviction` (lines 408-422): under the entry's lock, queue a
reset-stickiness request (reading the still-intact state) before `clearState`
when the entry was live, then clear.  Returns the final context and the list
of requests enqueued, in order. -/
def onEviction (w : WfCtx) : WfCtx × List ResetStickinessReq :=
  let sent := if shouldResetStickyOnEviction w then [queueResetStickinessTask w] else []
  (clearState w, sent)

/-- C7: the eviction callback enqueues exactly one reset-stickiness request —
carrying the evicted context's domain, workflow id and run id, read before the
state is cleared — if and only if the stored error is nil and the workflow is
not completed; otherwise it enqueues nothing; and in every case the context
ends destroyed. -/
theorem onEviction_spec (w : WfCtx) :
    ((onEviction w).2 = [⟨w.domain, w.workflowID, w.runID⟩] ↔
      (w.err = none ∧ w.isWorkflowCompleted = false)) ∧
    ((w.err ≠ none ∨ w.isWorkflowCompleted = true) → (onEviction w).2 = []) ∧
    isDestroyed (onEviction w).1 = true := by
  refine ⟨?_, ?_, ?_⟩
  · unfold onEviction shouldResetStickyOnEviction queueResetStickinessTask
    by_cases h1 : w.err = none <;> by_cases h2 : w.isWorkflowCompleted = true <;>
      simp [h1, h2]
  · intro h
    unfold onEviction shouldResetStickyOnEviction
    rcases h with h | h <;> simp [h]
  · rfl

/-- Witness for C7's theorem: a completed context enqueues nothing and ends
destroyed. -/
theorem onEviction_spec_witness :
    (onEviction wCtxDone).2 = [] ∧ isDestroyed (onEviction wCtxDone).1 = true :=
  ⟨(onEviction_spec wCtxDone).2.1 (Or.inr (by decide)), (onEviction_spec wCtxDone).2.2⟩

/-! ## History reset and staleness (`resetHistory`, `resetStateIfDestroyed`,
`ResetIfStale`, `SetCurrentTask`) -/

/-- Remaining pages of the external `HistoryIterator`; `Reset` rewinds it, so
functions that reset are handed the full page list from the beginning. -/
abbrev Pages := List (List HistoryEvent)

/-- `isFullHistory` (lines 567-572). -/
def isFullHistory (history : List HistoryEvent) : Bool :=
  match history with
  | [] => false
  | e :: _ => e.eventType == EventType.WorkflowExecutionStarted

/-- `resetHistory` (lines 465-473): rewind the iterator and install its first
page as the task's history.  An iterator with no pages models a failing
`GetNextPage` and yields the error. -/
def resetHistory (task : PollForDecisionTaskResponse) (allPages : Pages) :
    PollForDecisionTaskResponse × Pages × Option Str :=
  match allPages with
  | [] => (task, [], some "no first history page".toList)
  | p :: rest => ({ task with history := p }, rest, none)

/-- `resetStateIfDestroyed` (lines 574-588): if the context is destroyed,
rebuild the event handler and, when the task history is partial, rewind to the
full history.  Mutations persist even when an error is returned, as in Go. -/
def resetStateIfDestroyed (w : WfCtx) (task : PollForDecisionTaskResponse)
    (allPages : Pages) : WfCtx × PollForDecisionTaskResponse × Pages × Option Str :=
  if isDestroyed w then
    let w2 := createEventHandler w
    if !(isFullHistory task.history) then
      let r := resetHistory task allPages
      (w2, r.1, r.2.1, r.2.2)
    else (w2, task, allPages, none)
  else (w, task, allPages, none)

/-- `ResetIfStale` (lines 810-828): when the incoming task's first event id
does not continue the cached state, clear the state and rebuild through
`resetStateIfDestroyed`. -/
def ResetIfStale (w : WfCtx) (task : PollForDecisionTaskResponse) (allPages : Pages) :
    WfCtx × PollForDecisionTaskResponse × Pages × Option Str :=
  match task.history with
  | [] => (w, task, allPages, none)
  | e :: _ =>
    if e.eventId ≠ w.previousStartedEventID + 1 then
      resetStateIfDestroyed (clearState w) task allPages
    else (w, task, allPages, none)

/-- `SetCurrentTask` (lines 801-808): record the current task; only non-query
tasks advance `previousStartedEventID` (the decision start timestamp is not
modelled). -/
def SetCurrentTask (w : WfCtx) (task : PollForDecisionTaskResponse) : WfCtx :=
  let w2 := { w with currentDecisionTask := some task }
  if task.query.isNone then { w2 with previousStartedEventID := task.startedEventId }
  else w2

/-- C10: with an empty incoming history, `ResetIfStale` is a no-op — it
returns no error and leaves the context (and the task and iterator)
unchanged. -/
theorem ResetIfStale_empty_history (w : WfCtx) (task : PollForDecisionTaskResponse)
    (allPages : Pages) (h : task.history = []) :
    ResetIfStale w task allPages = (w, task, allPages, none) := by
  unfold ResetIfStale
  rw [h]

def wEmptyHistoryTask : PollForDecisionTaskResponse :=
  { taskToken := "t".toList, workflowId := "wid".toList, runId := "r1".toList,
    workflowTypeName := "wt".toList, history := [], previousStartedEventId := 0,
    startedEventId := 0, query := some [] }

/-- Witness for C10's theorem at a concrete empty-history task. -/
theorem ResetIfStale_empty_history_witness :
    ResetIfStale wCtxAlive wEmptyHistoryTask [] = (wCtxAlive, wEmptyHistoryTask, [], none) :=
  ResetIfStale_empty_history wCtxAlive wEmptyHistoryTask [] (by decide)

/-! ## Context acquisition (`createWorkflowContext`,
`getOrCreateWorkflowContext`) and claim C8 -/

/-- `createWorkflowContext` (lines 475-508): build a fresh context from the
`WorkflowExecutionStarted` attributes of the first history event; in this flat
model the attribute and task-list presence checks collapse to the event-type
check.  The fresh context ends in the state `createEventHandler` leaves it
in. -/
def createWorkflowContext (cfg : WthConfig) (task : PollForDecisionTaskResponse) :
    Except Str WfCtx :=
  match task.history with
  | [] => Except.error "empty history".toList
  | e :: _ =>
    if e.eventType == EventType.WorkflowExecutionStarted then
      Except.ok
        { domain := cfg.domain, workflowID := task.workflowId, runID := task.runId,
          eventHandler := some newEventHandler, isWorkflowCompleted := false,
          result := none, err := none, previousStartedEventID := 0,
          newDecisions := [], currentDecisionTask := none }
    else Except.error "first history event is not WorkflowExecutionStarted".toList

/-- First event id of a history (`history.Events[0].GetEventId()`); the
callers that reach it guarantee non-emptiness, `0` otherwise. -/
def firstEventId : List HistoryEvent → Int
  | [] => 0
  | e :: _ => e.eventId

/-- `getOrCreateWorkflowContext` (lines 510-565): look the run id up in the
sticky cache (except for a full-history query task); on a hit keep the state,
detect staleness for non-query tasks (the `ResetIfStale` error is discarded,
as at line 540); on a miss rewind a partial history, build a fresh context,
and insert it into the cache only when sticky execution is enabled and the
task is not a query; finally rebuild a destroyed context.  Returns the cache
after the call, the acquired context (`none` on error), the possibly rewound
task and remaining pages, and the error. -/
def getOrCreateWorkflowContext (cfg : WthConfig) (cache : Cache)
    (task : PollForDecisionTaskResponse) (allPages : Pages) :
    Cache × Option WfCtx × PollForDecisionTaskResponse × Pages × Option Str :=
  match
    (if task.query.isNone || (task.query.isSome && !(isFullHistory task.history)) then
      getWorkflowContext cache task.runId
    else none) with
  | some wc =>
    let r1 :=
      if task.query.isSome && !(isFullHistory task.history) then (wc, task, allPages)
      else if firstEventId task.history == wc.previousStartedEventID + 1 then
        (wc, task, allPages)
      else
        let r := ResetIfStale wc task allPages
        (r.1, r.2.1, r.2.2.1)
    let r2 := resetStateIfDestroyed r1.1 r1.2.1 r1.2.2
    (updateWorkflowContext cache task.runId r2.1, some r2.1, r2.2.1, r2.2.2.1, r2.2.2.2)
  | none =>
    let rh :=
      if !(isFullHistory task.history) then resetHistory task allPages
      else (task, allPages, none)
    match rh.2.2 with
    | some e => (cache, none, rh.1, rh.2.1, some e)
    | none =>
      match createWorkflowContext cfg rh.1 with
      | Except.error e => (cache, none, rh.1, rh.2.1, some e)
      | Except.ok fresh =>
        let putAttempted := !cfg.disableStickyExecution && rh.1.query.isNone
        let pr :=
          if putAttempted then putWorkflowContext cache task.runId fresh
          else (cache, fresh)
        let r2 := resetStateIfDestroyed pr.2 rh.1 rh.2.1
        ((if putAttempted then updateWorkflowContext pr.1 task.runId r2.1 else pr.1),
          some r2.1, r2.2.1, r2.2.2.1, r2.2.2.2)

theorem updateWorkflowContext_keys (cache : Cache) (k : Str) (v : WfCtx) :
    (updateWorkflowContext cache k v).map Prod.fst = cache.map Prod.fst := by
  unfold updateWorkflowContext
  rw [List.map_map]
  apply List.map_congr_left
  intro p _
  by_cases h : (p.1 == k) = true
  · simp only [Function.comp_apply, if_pos h]
    exact (eq_of_beq h).symm
  · simp only [Function.comp_apply, if_neg h]

theorem resetHistory_query (task : PollForDecisionTaskResponse) (allPages : Pages) :
    (resetHistory task allPages).1.query = task.query := by
  unfold resetHistory
  cases allPages <;> rfl

/-- The state-changing prelude of
`workflowExecutionContextImpl.ProcessWorkflowTask` (lines 631-635):
`ResetIfStale` (returning its error if any) followed by `SetCurrentTask`; the
replay loop that follows does not touch `previousStartedEventID`. -/
def processWorkflowTaskEntry (w : WfCtx) (task : PollForDecisionTaskResponse)
    (allPages : Pages) : WfCtx × PollForDecisionTaskResponse × Pages × Option Str :=
  let r := ResetIfStale w task allPages
  match r.2.2.2 with
  | some e => (r.1, r.2.1, r.2.2.1, some e)
  | none => (SetCurrentTask r.1 r.2.1, r.2.1, r.2.2.1, none)

/-- C8 (amended): processing a query task never inserts a context into the
sticky cache — `getOrCreateWorkflowContext` leaves the cache keys unchanged —
and `SetCurrentTask` leaves `previousStartedEventID` unchanged for query
tasks; the id is never advanced by a query task, though `ResetIfStale` can
still reset it to zero when the query task's history reveals stale cached
state. -/
theorem queryTask_cache_and_prevId (cfg : WthConfig) (cache : Cache)
    (task : PollForDecisionTaskResponse) (allPages : Pages) (w : WfCtx)
    (hq : task.query.isSome = true) :
    ((getOrCreateWorkflowContext cfg cache task allPages).1.map Prod.fst =
      cache.map Prod.fst) ∧
    (SetCurrentTask w task).previousStartedEventID = w.previousStartedEventID ∧
    ((ResetIfStale w task allPages).1.previousStartedEventID = w.previousStartedEventID ∨
      (ResetIfStale w task allPages).1.previousStartedEventID = 0) := by
  have hqn : task.query.isNone = false := by
    rcases Option.isSome_iff_exists.mp hq with ⟨v, hv⟩
    simp [hv]
  refine ⟨?_, ?_, ?_⟩
  · unfold getOrCreateWorkflowContext
    split
    · exact updateWorkflowContext_keys cache task.runId _
    · dsimp only
      split
      · rfl
      · split
        · rfl
        · have hput : (!cfg.disableStickyExecution &&
              ((if !(isFullHistory task.history) then resetHistory task allPages
                else (task, allPages, none)).1).query.isNone) = false := by
            by_cases hful : isFullHistory task.history = true
            · simp [hful, hqn]
            · have hful' : isFullHistory task.history = false := by
                revert hful; cases isFullHistory task.history <;> simp
              simp [hful', resetHistory_query, hqn]
          simp only [hput, Bool.false_eq_true, if_false]
  · unfold SetCurrentTask
    simp [hqn]
  · unfold ResetIfStale
    cases hh : task.history with
    | nil => exact Or.inl rfl
    | cons e rest =>
      dsimp only
      by_cases hs : e.eventId ≠ w.previousStartedEventID + 1
      · rw [if_pos hs]
        right
        unfold resetStateIfDestroyed
        have hd : isDestroyed (clearState w) = true := rfl
        rw [if_pos hd]
        by_cases hful : (!(isFullHistory task.history)) = true
        · rw [if_pos hful]; rfl
        · rw [if_neg (by simpa using hful)]; rfl
      · rw [if_neg hs]
        exact Or.inl rfl

def cexQueryTask : PollForDecisionTaskResponse :=
  { taskToken := "t".toList, workflowId := "wid2".toList, runId := "r2".toList,
    workflowTypeName := "wt".toList,
    history := [{ eventId := 10, eventType := EventType.ActivityTaskCompleted }],
    previousStartedEventId := 9, startedEventId := 12, query := some [] }

def cexQueryPages : Pages :=
  [[{ eventId := 1, eventType := EventType.WorkflowExecutionStarted }]]

/-- C8 counterexample: a query task whose partial history starts at event id
10 reaches a cached context whose `previousStartedEventID` is 5; processing
runs `ResetIfStale`, which clears the state, so `previousStartedEventID`
changes from 5 to 0 even though the task is a query — refuting "never
changes" (`SetCurrentTask` itself indeed leaves it alone). -/
theorem queryTask_prevId_changes_cex :
    cexQueryTask.query.isSome = true ∧
    wCtxAlive.previousStartedEventID = 5 ∧
    (processWorkflowTaskEntry wCtxAlive cexQueryTask cexQueryPages).1.previousStartedEventID
      = 0 := by
  decide

/-- Witness for C8's theorem at a concrete query task and cached context. -/
theorem queryTask_cache_and_prevId_witness :
    ((getOrCreateWorkflowContext wCfg [("r2".toList, wCtxAlive)] cexQueryTask
        cexQueryPages).1.map Prod.fst =
      ([("r2".toList, wCtxAlive)] : Cache).map Prod.fst) ∧
    (SetCurrentTask wCtxAlive cexQueryTask).previousStartedEventID =
      wCtxAlive.previousStartedEventID ∧
    ((ResetIfStale wCtxAlive cexQueryTask cexQueryPages).1.previousStartedEventID =
        wCtxAlive.previousStartedEventID ∨
      (ResetIfStale wCtxAlive cexQueryTask cexQueryPages).1.previousStartedEventID = 0) :=
  queryTask_cache_and_prevId wCfg [("r2".toList, wCtxAlive)] cexQueryTask
    cexQueryPages wCtxAlive (by decide)

/-! ## Decision task completion (`completeWorkflow`, `CompleteDecisionTask`)
and the non-determinism policy (claim C2) -/

/-- Requests assembled by `completeWorkflow` and `errorToFailDecisionTask`:
`RespondQueryTaskCompleted`, `RespondDecisionTaskFailed`,
`RespondDecisionTaskCompleted`. -/
inductive CompleteRequest where
  | respondQueryTaskCompleted (taskToken : Str) (failed : Bool) (errorMessage : Str)
      (queryResult : Str)
  | respondDecisionTaskFailed (taskToken : Str) (details : Str) (identity : Str)
  | respondDecisionTaskCompleted (taskToken : Str) (decisions : List Decision)
      (identity : Str) (returnNewDecisionTask : Bool) (forceCreateNewDecisionTask : Bool)
  deriving DecidableEq, Repr

/-- `createNewDecision` (lines 1429-1433). -/
def createNewDecision (t : DecisionType) : Decision :=
  { decisionType := t }

/-- `workflowTaskHandlerImpl.completeWorkflow` (lines 1091-1183): build the
query response, fail the decision task on a panic, or complete it, appending a
closing decision for a terminal outcome (cancel, continue-as-new, failure, or
clean completion), which also forces `forceCreateNewDecisionTask` off.  The
query branch's `ProcessQuery` call is external; its outcome is the
`queryOutcome` oracle argument. -/
def completeWorkflow (cfg : WthConfig) (queryOutcome : Except Str Str)
    (task : PollForDecisionTaskResponse) (wErr : Option ErrKind)
    (wIsCompleted : Bool) (wResult : Option Str) (decisions : List Decision)
    (forceNewDecision : Bool) : CompleteRequest :=
  if task.query.isSome then
    match wErr with
    | some (ErrKind.panicErr m) =>
      CompleteRequest.respondQueryTaskCompleted task.taskToken true
        ("Workflow panic: ".toList ++ m) []
    | _ =>
      match queryOutcome with
      | Except.error e =>
        CompleteRequest.respondQueryTaskCompleted task.taskToken true e []
      | Except.ok r =>
        CompleteRequest.respondQueryTaskCompleted task.taskToken false [] r
  else
    match wErr with
    | some (ErrKind.panicErr m) =>
      CompleteRequest.respondDecisionTaskFailed task.taskToken
        (getErrorDetails (ErrKind.panicErr m)).2 cfg.identity
    | some (ErrKind.canceledErr d) =>
      CompleteRequest.respondDecisionTaskCompleted task.taskToken
        (decisions ++ [{ createNewDecision DecisionType.CancelWorkflowExecution with
          details := d }]) cfg.identity true false
    | some (ErrKind.continueAsNewErr wt inp tl et tt) =>
      CompleteRequest.respondDecisionTaskCompleted task.taskToken
        (decisions ++ [{ createNewDecision DecisionType.ContinueAsNewWorkflowExecution with
          workflowTypeName := wt, input := inp, taskListName := tl,
          executionStartToCloseTimeoutSeconds := et,
          taskStartToCloseTimeoutSeconds := tt }]) cfg.identity true false
    | some e =>
      CompleteRequest.respondDecisionTaskCompleted task.taskToken
        (decisions ++ [{ createNewDecision DecisionType.FailWorkflowExecution with
          reason := (getErrorDetails e).1, details := (getErrorDetails e).2 }])
        cfg.identity true false
    | none =>
      if wIsCompleted then
        CompleteRequest.respondDecisionTaskCompleted task.taskToken
          (decisions ++ [{ createNewDecision DecisionType.CompleteWorkflowExecution with
            result := wResult.getD [] }]) cfg.identity true false
      else
        CompleteRequest.respondDecisionTaskCompleted task.taskToken decisions
          cfg.identity true forceNewDecision

/-- `CompleteDecisionTask` (lines 751-782): nothing to do without a current
task; start unstarted local activities when a tunnel exists, and when waiting
on pending local activities return no request; otherwise drain the decisions
helper, assemble the response through `completeWorkflow` with
`forceNewDecision := !waitLocalActivities`, and clear the current task.
Returns the request (if any) and the context after the call. -/
def CompleteDecisionTask (cfg : WthConfig) (queryOutcome : Except Str Str)
    (w : WfCtx) (waitLocalActivities : Bool) : Option CompleteRequest × WfCtx :=
  match w.currentDecisionTask with
  | none => (none, w)
  | some task =>
    let w1 :=
      if hasPendingLocalActivityWork w && cfg.laTunnelPresent then
        { w with eventHandler :=
            w.eventHandler.map (fun eh => { eh with unstartedLaTasks := [] }) }
      else w
    if hasPendingLocalActivityWork w && cfg.laTunnelPresent && waitLocalActivities then
      (none, w1)
    else
      let eventDecisions :=
        match w1.eventHandler with
        | some eh => eh.helperDecisions
        | none => []
      let newDecs := w1.newDecisions ++ eventDecisions
      let w2 := { w1 with
        newDecisions := newDecs
        eventHandler := w1.eventHandler.map (fun eh => { eh with helperDecisions := [] }) }
      let req := completeWorkflow cfg queryOutcome task w2.err w2.isWorkflowCompleted
        w2.result newDecs (!waitLocalActivities)
      (some req, clearCurrentTask w2)

/-- `skipReplayCheck` (lines 793-795), applied to the current decision task. -/
def skipReplayCheck (task : PollForDecisionTaskResponse) : Bool :=
  task.query.isSome || !(isFullHistory task.history)

/-- Modelled from the spec: the formatted message of a match error
(`err.Error()`, whose event/decision rendering lives outside the embedded
source file); the text is abstracted to a fixed rendering per error kind. -/
def matchErrMessage : MatchErr → Str
  | MatchErr.missingReplayDecision _ =>
    "nondeterministic workflow: missing replay decision".toList
  | MatchErr.extraReplayDecision _ =>
    "nondeterministic workflow: extra replay decision".toList
  | MatchErr.historyMismatch _ _ =>
    "nondeterministic workflow: history event mismatch".toList

/-- The tail of `workflowExecutionContextImpl.ProcessWorkflowTask` (lines
707-740), picking up after the replay loop has produced `replayDecisions` and
`respondEvents` and left the context in state `w` (with the current task
set): run the non-determinism check unless skipped; on a mismatch apply the
policy — FailWorkflow completes the workflow through the event handler's
completion callback (a custom error with reason "nondeterministic workflow",
per the handler contract `complete(result, err)` modelled from the spec) and
then completes the decision task, BlockWorkflow returns the error; with no
mismatch, complete the decision task. -/
def processWorkflowTaskPost (cfg : WthConfig) (queryOutcome : Except Str Str)
    (w : WfCtx) (task : PollForDecisionTaskResponse)
    (replayDecisions : List Decision) (respondEvents : List HistoryEvent) :
    Except MatchErr (Option CompleteRequest × WfCtx) :=
  if !(skipReplayCheck task) then
    match matchReplayWithHistory replayDecisions respondEvents with
    | some merr =>
      match cfg.nonDeterministicWorkflowPolicy with
      | NonDeterministicWorkflowPolicy.FailWorkflow =>
        let w1 := completeWorkflowContext w none
          (some (NewCustomError "nondeterministic workflow".toList (matchErrMessage merr)))
        Except.ok (CompleteDecisionTask cfg queryOutcome w1 true)
      | NonDeterministicWorkflowPolicy.BlockWorkflow => Except.error merr
    | none => Except.ok (CompleteDecisionTask cfg queryOutcome w true)
  else Except.ok (CompleteDecisionTask cfg queryOutcome w true)

/-- C2: for a full-history, non-query decision task whose replayed decisions
mismatch the historical events, under the FailWorkflow policy the result is a
`RespondDecisionTaskCompleted` request whose decisions contain a
`FailWorkflowExecution` decision with reason "nondeterministic workflow",
while under the BlockWorkflow policy the mismatch error is returned and no
response request is produced. -/
theorem processWorkflowTask_nondeterminism (cfg : WthConfig)
    (queryOutcome : Except Str Str) (w : WfCtx)
    (task : PollForDecisionTaskResponse) (rd : List Decision)
    (re : List HistoryEvent) (merr : MatchErr)
    (hq : task.query = none) (hf : isFullHistory task.history = true)
    (hcur : w.currentDecisionTask = some task)
    (hm : matchReplayWithHistory rd re = some merr) :
    (cfg.nonDeterministicWorkflowPolicy = NonDeterministicWorkflowPolicy.FailWorkflow →
      ∃ decisions w2,
        processWorkflowTaskPost cfg queryOutcome w task rd re =
          Except.ok (some (CompleteRequest.respondDecisionTaskCompleted task.taskToken
            decisions cfg.identity true false), w2) ∧
        ∃ d ∈ decisions, d.decisionType = DecisionType.FailWorkflowExecution ∧
          d.reason = "nondeterministic workflow".toList) ∧
    (cfg.nonDeterministicWorkflowPolicy = NonDeterministicWorkflowPolicy.BlockWorkflow →
      processWorkflowTaskPost cfg queryOutcome w task rd re = Except.error merr) := by
  have hskip : skipReplayCheck task = false := by
    unfold skipReplayCheck
    simp [hq, hf]
  constructor
  · intro hpol
    unfold processWorkflowTaskPost
    rw [hskip, hm, hpol]
    simp only [Bool.not_false, if_true]
    set w1 := completeWorkflowContext w none
      (some (NewCustomError "nondeterministic workflow".toList (matchErrMessage merr))) with hw1
    have hcur1 : w1.currentDecisionTask = some task := hcur
    have hnp : hasPendingLocalActivityWork w1 = false := by
      unfold hasPendingLocalActivityWork
      rw [hw1]
      simp [completeWorkflowContext]
    unfold CompleteDecisionTask
    rw [hcur1]
    dsimp only
    rw [hnp]
    simp only [Bool.false_and, Bool.false_eq_true, if_false]
    have hqs : task.query.isSome = false := by simp [hq]
    unfold completeWorkflow
    rw [hqs]
    simp only [Bool.false_eq_true, if_false]
    have herr : w1.err = some (ErrKind.customErr "nondeterministic workflow".toList
        (matchErrMessage merr)) := rfl
    rw [herr]
    dsimp only
    refine ⟨_, _, rfl, ?_⟩
    refine ⟨{ createNewDecision DecisionType.FailWorkflowExecution with
      reason := (getErrorDetails (ErrKind.customErr "nondeterministic workflow".toList
        (matchErrMessage merr))).1
      details := (getErrorDetails (ErrKind.customErr "nondeterministic workflow".toList
        (matchErrMessage merr))).2 }, ?_, rfl, rfl⟩
    simp
  · intro hpol
    unfold processWorkflowTaskPost
    rw [hskip, hm, hpol]
    rfl

def wMismatchEvent : HistoryEvent :=
  { eventId := 6, eventType := EventType.ActivityTaskScheduled, activityId := "1".toList }

def wFullTask : PollForDecisionTaskResponse :=
  { taskToken := "tok".toList, workflowId := "wid".toList, runId := "r1".toList,
    workflowTypeName := "wt".toList,
    history := [{ eventId := 1, eventType := EventType.WorkflowExecutionStarted }],
    previousStartedEventId := 0, startedEventId := 3, query := none }

def wCtxWithTask : WfCtx :=
  { domain := "dom".toList, workflowID := "wid".toList, runID := "r1".toList,
    eventHandler := some newEventHandler, isWorkflowCompleted := false,
    result := none, err := none, previousStartedEventID := 3,
    newDecisions := [], currentDecisionTask := some wFullTask }

def wCfgFail : WthConfig :=
  { wCfg with nonDeterministicWorkflowPolicy := NonDeterministicWorkflowPolicy.FailWorkflow }

/-- Witness for C2's theorem: a full-history non-query task with a replay that
produced no decision for a scheduled-activity event, under both policies. -/
theorem processWorkflowTask_nondeterminism_witness :
    (wFullTask.query = none ∧ isFullHistory wFullTask.history = true ∧
      wCtxWithTask.currentDecisionTask = some wFullTask ∧
      matchReplayWithHistory [] [wMismatchEvent] =
        some (MatchErr.missingReplayDecision wMismatchEvent)) ∧
    (∃ decisions w2,
      processWorkflowTaskPost wCfgFail (Except.ok []) wCtxWithTask wFullTask []
          [wMismatchEvent] =
        Except.ok (some (CompleteRequest.respondDecisionTaskCompleted wFullTask.taskToken
          decisions wCfgFail.identity true false), w2) ∧
      ∃ d ∈ decisions, d.decisionType = DecisionType.FailWorkflowExecution ∧
        d.reason = "nondeterministic workflow".toList) ∧
    processWorkflowTaskPost wCfg (Except.ok []) wCtxWithTask wFullTask []
        [wMismatchEvent] =
      Except.error (MatchErr.missingReplayDecision wMismatchEvent) := by
  have hm : matchReplayWithHistory [] [wMismatchEvent] =
      some (MatchErr.missingReplayDecision wMismatchEvent) := by
    rw [matchReplayWithHistory]
    simp [skipDeterministicCheckForEvent, wMismatchEvent]
  refine ⟨⟨rfl, by decide, rfl, hm⟩, ?_, ?_⟩
  · exact (processWorkflowTask_nondeterminism wCfgFail (Except.ok []) wCtxWithTask
      wFullTask [] [wMismatchEvent] (MatchErr.missingReplayDecision wMismatchEvent)
      rfl (by decide) rfl hm).1 rfl
  · exact (processWorkflowTask_nondeterminism wCfg (Except.ok []) wCtxWithTask
      wFullTask [] [wMismatchEvent] (MatchErr.missingReplayDecision wMismatchEvent)
      rfl (by decide) rfl hm).2 rfl

/-! ## Heartbeat invoker (`cadenceInvoker`) and claim C9 -/

/-- `defaultHeartBeatIntervalInSec` (line 47). -/
def defaultHeartBeatIntervalInSec : Int := 10 * 60

/-- State of the `cadenceInvoker` read and written by `Heartbeat`: the batch
timer (when open, carrying the window length in whole seconds) and the last
details to report.  The service client, retry policy, identity, task token and
close channel are external. -/
structure CadenceInvoker where
  heartBeatTimeoutInSec : Int
  hbBatchEndTimer : Option Int
  lastDetailsToReport : Option Str
  deriving DecidableEq, Repr

/-- Whether the outcome of `internalHeartBeat` (lines 1308-1328) counts as a
cancellation: a `CanceledError` result or an `EntityNotExistsError` invokes
the cancel handler and marks the activity cancelled. -/
def isActivityCancelledErr : Option ErrKind → Bool
  | some (ErrKind.canceledErr _) => true
  | some ErrKind.entityNotExistsErr => true
  | _ => false

/-- The batching window opened by `Heartbeat` (lines 1270-1279), in whole
seconds.  Go computes `time.Duration(0.8*float32(deadlineToTrigger)) *
time.Second`: the float32 product of 0.8 and the deadline is truncated to an
integral count of seconds.  For every deadline below 2^22 — far above real
int32 heartbeat timeouts, and covering all inputs in this file — the float32
rounding error is smaller than the distance of the exact product to the next
integer in either direction, so the truncation equals `⌊4·deadline/5⌋`, which
is how the window is modelled. -/
def hbBatchWindowSeconds (heartBeatTimeoutInSec : Int) : Int :=
  4 * (if heartBeatTimeoutInSec ≤ 0 then defaultHeartBeatIntervalInSec
       else heartBeatTimeoutInSec) / 5

/-- `Heartbeat` (lines 1252-1306): under the invoker's mutex, an open batch
window only records the details and returns nil; otherwise one heartbeat RPC
is performed (its outcome is the `rpcErr` oracle) and, on success or a
cancelled result, the recorded details are cleared and a new batch window is
opened.  The spawned flush goroutine is asynchronous and not modelled here.
Returns the new state, the caller's return value, and the number of RPCs the
call performed. -/
def Heartbeat (i : CadenceInvoker) (details : Str) (rpcErr : Option ErrKind) :
    CadenceInvoker × Option ErrKind × Nat :=
  match i.hbBatchEndTimer with
  | some _ => ({ i with lastDetailsToReport := some details }, none, 0)
  | none =>
    if rpcErr.isNone || isActivityCancelledErr rpcErr then
      ({ i with
          lastDetailsToReport := none
          hbBatchEndTimer := some (hbBatchWindowSeconds i.heartBeatTimeoutInSec) },
        rpcErr, 1)
    else (i, rpcErr, 1)

/-- C9 (amended): if a batch window is open, `Heartbeat` overwrites the last
details with the given ones and returns nil without performing any RPC; if no
window is open it performs exactly one RecordActivityHeartbeat RPC, returns
its outcome, and on success or a cancellation result clears the recorded
details and opens a new batch window of ⌊0.8 · deadline⌋ whole seconds, the
deadline being `heartBeatTimeoutInSec` or 10 minutes when that is not
positive. -/
theorem Heartbeat_batching (i : CadenceInvoker) (details : Str)
    (rpcErr : Option ErrKind) :
    (i.hbBatchEndTimer.isSome = true →
      Heartbeat i details rpcErr =
        ({ i with lastDetailsToReport := some details }, none, 0)) ∧
    (i.hbBatchEndTimer = none →
      (Heartbeat i details rpcErr).2.2 = 1 ∧
      (Heartbeat i details rpcErr).2.1 = rpcErr ∧
      ((rpcErr = none ∨ isActivityCancelledErr rpcErr = true) →
        (Heartbeat i details rpcErr).1.hbBatchEndTimer =
          some (4 * (if i.heartBeatTimeoutInSec ≤ 0 then 600
                     else i.heartBeatTimeoutInSec) / 5) ∧
        (Heartbeat i details rpcErr).1.lastDetailsToReport = none)) := by
  constructor
  · intro hopen
    unfold Heartbeat
    rcases ht : i.hbBatchEndTimer with _ | t
    · rw [ht] at hopen
      simp at hopen
    · rfl
  · intro hclosed
    unfold Heartbeat
    rw [hclosed]
    dsimp only
    by_cases hok : (rpcErr.isNone || isActivityCancelledErr rpcErr) = true
    · rw [if_pos hok]
      refine ⟨rfl, rfl, fun _ => ⟨?_, rfl⟩⟩
      unfold hbBatchWindowSeconds defaultHeartBeatIntervalInSec
      norm_num
    · rw [if_neg hok]
      refine ⟨rfl, rfl, fun hc => ?_⟩
      exfalso
      apply hok
      rcases hc with hc | hc
      · simp [hc]
      · simp [hc]

def cexInvoker3s : CadenceInvoker :=
  { heartBeatTimeoutInSec := 3, hbBatchEndTimer := none, lastDetailsToReport := none }

/-- C9 counterexample: with a 3-second heartbeat timeout and a successful RPC,
the opened batch window is 2 whole seconds (Go truncates
`time.Duration(0.8*float32(3))` to 2 before scaling by `time.Second`), which
is not 80% of 3 seconds: in nanoseconds, 2·10⁹ ≠ 2.4·10⁹. -/
theorem Heartbeat_window_cex :
    (Heartbeat cexInvoker3s [] none).1.hbBatchEndTimer = some 2 ∧
    (2 : Int) * 1000000000 ≠ 8 * 3 * 1000000000 / 10 := by
  decide

def cexInvokerOpen : CadenceInvoker :=
  { heartBeatTimeoutInSec := 10, hbBatchEndTimer := some 8,
    lastDetailsToReport := none }

/-- Witness for C9's theorem: an open window only records details; a closed
window performs one RPC and opens a ⌊0.8·3⌋ = 2 second window. -/
theorem Heartbeat_batching_witness :
    (Heartbeat cexInvokerOpen "d".toList none =
      ({ cexInvokerOpen with lastDetailsToReport := some "d".toList }, none, 0)) ∧
    (Heartbeat cexInvoker3s "d".toList none).2.2 = 1 ∧
    (Heartbeat cexInvoker3s "d".toList none).2.1 = none ∧
    ((Heartbeat cexInvoker3s "d".toList none).1.hbBatchEndTimer =
      some (4 * (if cexInvoker3s.heartBeatTimeoutInSec ≤ 0 then 600
                 else cexInvoker3s.heartBeatTimeoutInSec) / 5) ∧
      (Heartbeat cexInvoker3s "d".toList none).1.lastDetailsToReport = none) := by
  have hclosed := (Heartbeat_batching cexInvoker3s "d".toList none).2 rfl
  exact ⟨(Heartbeat_batching cexInvokerOpen "d".toList none).1 rfl,
    hclosed.1, hclosed.2.1, hclosed.2.2 (Or.inl rfl)⟩
